import Mathlib

/-!
Verification development for the catalog service `app/app-v2.py`:
a Flask application exposing a product list backed by PostgreSQL
(the durable store) and fronted by a Redis cache (cache-aside).

The embedding models:
  * the product table and the SQL statements the handlers issue
    (`SELECT ... ORDER BY id`, `INSERT ... RETURNING id`, `UPDATE`, `DELETE`);
  * the Redis calls `get`, `setex`, `delete` on the single key `"products"`,
    with explicit expiry times driven by an abstract clock;
  * the JSON payloads at the level of the JSON value tree: `json.dumps` /
    `json.loads` (an external library) are modelled as the identity on that
    tree, so what the cache stores is the JSON value the handler dumped;
  * exception behaviour: each external call may raise, controlled by a
    `Faults` record; a raise inside a handler's `try` block lands in its
    `except` clause (a 500 response), a raise outside it propagates out of
    the handler (Flask turns it into a 500 as well).  Either way the
    response is modelled as `err`.
  * every handler returns an `Out` record: the response, the resulting
    store and cache states, and a trace of the external events that
    actually happened (a raising call contributes the terminal `Ev.fail`).

Numeric prices are modelled as exact rationals: the source converts the
SQL `numeric` column with `float(...)` before dumping to JSON; the
embedding keeps the value exact, which is faithful for every value the
claims evaluate.
-/

/-- JSON value trees, as produced by Python's `json` module: the handlers
exchange lists of objects `{"id": int, "name": str, "price": number}`. -/
inductive Json where
  | jint (n : Int)
  | jnum (q : Rat)
  | jstr (s : String)
  | jarr (items : List Json)
  | jobj (fields : List (String × Json))

/-- A row of the `products` table: `id` (assigned by the store), `name`,
`price`. -/
structure Product where
  id : Int
  name : String
  price : Rat
deriving DecidableEq

/-- The durable store: the rows of the `products` table plus the serial
sequence the store uses to assign the next `id` on insert. -/
structure Store where
  rows : List Product
  nextId : Int
deriving DecidableEq

/-- Comparison by `id`, the order of `SELECT ... ORDER BY id`. -/
def prodLE (a b : Product) : Prop := a.id ≤ b.id

instance : DecidableRel prodLE := fun a b => inferInstanceAs (Decidable (a.id ≤ b.id))

instance : IsTotal Product prodLE := ⟨fun a b => Int.le_total a.id b.id⟩

instance : IsTrans Product prodLE := ⟨fun _ _ _ h1 h2 => le_trans h1 h2⟩

/-- The store's answer to `SELECT id, name, price FROM products ORDER BY id;`
(source line 62): the rows, ordered by `id` ascending. -/
def selectAllProductsOrderedById (s : Store) : List Product :=
  List.insertionSort prodLE s.rows

/-- The store's execution of
`INSERT INTO products (name, price) VALUES (%s, %s) RETURNING id;`
(source lines 90–93): the new row gets the next serial `id`, which the
`RETURNING` clause hands back. -/
def insertProduct (s : Store) (name : String) (price : Rat) : Int × Store :=
  (s.nextId, ⟨s.rows ++ [⟨s.nextId, name, price⟩], s.nextId + 1⟩)

/-- The store's execution of
`UPDATE products SET name = %s, price = %s WHERE id = %s;`
(source lines 119–122): first component is `cur.rowcount`, second the
table after the update (visible only once committed). -/
def updateProductById (s : Store) (pid : Int) (name : String) (price : Rat) :
    Nat × Store :=
  (s.rows.countP (fun p => p.id == pid),
   ⟨s.rows.map (fun p => if p.id = pid then ⟨p.id, name, price⟩ else p), s.nextId⟩)

/-- The store's execution of `DELETE FROM products WHERE id = %s;`
(source line 145): first component is `cur.rowcount`, second the table
after the delete (visible only once committed). -/
def deleteProductById (s : Store) (pid : Int) : Nat × Store :=
  (s.rows.countP (fun p => p.id == pid),
   ⟨s.rows.filter (fun p => p.id != pid), s.nextId⟩)

/-- One Redis entry: the stored JSON value and the absolute time at which
it expires (set time plus TTL). -/
structure CacheEntry where
  value : Json
  expiresAt : Nat

/-- The Redis key space.  Only the key `"products"` is ever touched by the
application. -/
abbrev Cache := String → Option CacheEntry

/-- A Redis instance with no keys. -/
def emptyCache : Cache := fun _ => none

/-- `redis_client.get(k)` at time `t`: the value if the key is present and
not yet expired, otherwise absent. -/
def redisGet (c : Cache) (k : String) (t : Nat) : Option Json :=
  match c k with
  | some e => if t < e.expiresAt then some e.value else none
  | none => none

/-- `redis_client.setex(k, ttl, v)` at time `t`: store `v` under `k`,
expiring `ttl` time-units later. -/
def redisSetex (c : Cache) (k : String) (ttl : Nat) (v : Json) (t : Nat) : Cache :=
  fun k' => if k' = k then some ⟨v, t + ttl⟩ else c k'

/-- `redis_client.delete(k)`: remove the key (a no-op if absent). -/
def redisDelete (c : Cache) (k : String) : Cache :=
  fun k' => if k' = k then none else c k'

/-- The process environment (`os.getenv`): a partial map from variable
names to values. -/
abbrev Env := String → Option String

/-- The file system as `get_secret` sees it: path ↦ file contents when the
path exists (`os.path.exists`), absent otherwise. -/
abbrev FS := String → Option String

/-- Whitespace in the sense of Python's `str.strip()` (ASCII subset:
space, tab, newline, carriage return, vertical tab, form feed). -/
def pyWsChar (c : Char) : Bool :=
  c = ' ' || c = '\t' || c = '\n' || c = '\r' || c.toNat = 11 || c.toNat = 12

/-- Python's `str.strip()`: drop leading and trailing whitespace. -/
def pyStrip (s : String) : String :=
  String.mk (((s.toList.dropWhile pyWsChar).reverse.dropWhile pyWsChar).reverse)

/-- `get_secret(env_var, default)` from source lines 13–19: if `{env_var}_FILE`
is set to a truthy (non-empty) path and that path exists, return the
stripped file contents; otherwise `os.getenv(env_var, default)`. -/
def get_secret (env : Env) (fs : FS) (env_var : String) (dflt : Option String) :
    Option String :=
  match env (env_var ++ "_FILE") with
  | some file_path =>
    match fs file_path with
    | some content =>
      if file_path = "" then (env env_var).orElse (fun _ => dflt)
      else some (pyStrip content)
    | none => (env env_var).orElse (fun _ => dflt)
  | none => (env env_var).orElse (fun _ => dflt)

/-- The module-level configuration of source lines 22–29.  The two
timeouts are kept as their raw environment strings (their `int`/`float`
parsing plays no role in any claim).  These values parameterise the
database and Redis connections, which the model abstracts as the explicit
`Store` and `Cache` arguments of each handler. -/
structure Config where
  dbHost : String
  dbName : Option String
  dbUser : Option String
  dbPassword : Option String
  redisHost : String
  dbConnectTimeout : String
  redisConnectTimeout : String
deriving DecidableEq

/-- Resolution of the module-level configuration from the environment and
file system (source lines 22–29). -/
def loadConfig (env : Env) (fs : FS) : Config :=
  { dbHost := (env "DB_HOST").getD "db"
    dbName := get_secret env fs "DB_NAME" (some "ecommerce")
    dbUser := get_secret env fs "DB_USER" (some "ecomuser")
    dbPassword := get_secret env fs "DB_PASSWORD" (some "securepassword123")
    redisHost := (env "REDIS_HOST").getD "redis"
    dbConnectTimeout := (env "DB_CONNECT_TIMEOUT").getD "3"
    redisConnectTimeout := (env "REDIS_CONNECT_TIMEOUT").getD "3" }

/-- Which external calls raise in a given execution. -/
structure Faults where
  gFail : Bool
  sFail : Bool
  dFail : Bool
  connFail : Bool
  execFail : Bool
  commitFail : Bool
deriving DecidableEq

/-- An execution in which every external call succeeds. -/
def noFaults : Faults := ⟨false, false, false, false, false, false⟩

/-- Observable external events of one handler execution, in order.  A call
that raises contributes the terminal `fail`; events are recorded only for
calls that succeed. -/
inductive Ev where
  | dbConnect
  | dbExec
  | dbFetchId
  | dbCommit
  | cacheGetEv
  | cacheSetEv
  | cacheDelEv
  | respond
  | fail
deriving DecidableEq

/-- Result of one handler execution: the HTTP-level response, the
resulting store and cache states, and the event trace. -/
structure Out (ρ : Type) where
  resp : ρ
  store : Store
  cache : Cache
  tr : List Ev

/-- Where a successful list response was served from (`"source"` field). -/
inductive Origin where
  | cache
  | database
deriving DecidableEq

/-- Response of the list endpoint: `origin` tag plus the JSON data, or a
500 error. -/
inductive ListResp where
  | ok (origin : Origin) (data : Json)
  | err

/-- Response of a mutating endpoint: success with the product id, a 404
not-found, or a 500 error. -/
inductive MutResp where
  | ok (pid : Int)
  | notFound
  | err
deriving DecidableEq

/-- JSON form of one product row, as built on source line 68:
`{"id": p[0], "name": p[1], "price": float(p[2])}`. -/
def productToJson (p : Product) : Json :=
  Json.jobj [("id", Json.jint p.id), ("name", Json.jstr p.name), ("price", Json.jnum p.price)]

/-- JSON form of a product list (source line 68). -/
def productsToJson (l : List Product) : Json :=
  Json.jarr (l.map productToJson)

/-- TTL of the cached snapshot: the literal `120` passed to
`redis_client.setex('products', 120, ...)` on source line 71. -/
def snapshotTTL : Nat := 120

/-- The `GET /products` handler `get_products` (source lines 47–79).
The `redis_client.get('products')` call on line 50 happens before the
`try` block starts on line 59, so a raising cache read propagates out of
the handler (`err`, nothing else happens).  On a hit (the dumped list is
non-empty text, hence truthy) the cached value is returned with
`"source": "cache"`.  On a miss the database is read inside the `try`;
`setex` is issued with the literal TTL `120`; any raise inside the `try`
yields the 500 of line 79.  `cfg` carries the connection parameters of
lines 22–35, abstracted here by the explicit `st` and `c` states. -/
def get_products (f : Faults) (cfg : Config) (st : Store) (c : Cache) (t : Nat) :
    Out ListResp :=
  if f.gFail then ⟨.err, st, c, [.fail]⟩
  else
    match redisGet c "products" t with
    | some v => ⟨.ok .cache v, st, c, [.cacheGetEv, .respond]⟩
    | none =>
      if f.connFail then ⟨.err, st, c, [.cacheGetEv, .fail]⟩
      else if f.execFail then ⟨.err, st, c, [.cacheGetEv, .dbConnect, .fail]⟩
      else if f.sFail then ⟨.err, st, c, [.cacheGetEv, .dbConnect, .dbExec, .fail]⟩
      else
        ⟨.ok .database (productsToJson (selectAllProductsOrderedById st)), st,
         redisSetex c "products" snapshotTTL
           (productsToJson (selectAllProductsOrderedById st)) t,
         [.cacheGetEv, .dbConnect, .dbExec, .cacheSetEv, .respond]⟩

/-- The `POST /products` handler `add_product` (source lines 81–108).
Inside the `try`: connect, execute the `INSERT ... RETURNING id`, fetch
the new id (`cur.fetchone()[0]`, line 94), commit (line 95), then delete
the cache key (line 100).  A raise at any point lands in the `except`
clause (500); a commit that raises rolls the insert back, so the store is
unchanged.  The fetched id is the serial the insert assigned. -/
def add_product (f : Faults) (cfg : Config) (st : Store) (c : Cache)
    (name : String) (price : Rat) : Out MutResp :=
  if f.connFail then ⟨.err, st, c, [.fail]⟩
  else if f.execFail then ⟨.err, st, c, [.dbConnect, .fail]⟩
  else if f.commitFail then ⟨.err, st, c, [.dbConnect, .dbExec, .dbFetchId, .fail]⟩
  else if f.dFail then
    ⟨.err, (insertProduct st name price).2, c,
     [.dbConnect, .dbExec, .dbFetchId, .dbCommit, .fail]⟩
  else
    ⟨.ok (insertProduct st name price).1, (insertProduct st name price).2,
     redisDelete c "products",
     [.dbConnect, .dbExec, .dbFetchId, .dbCommit, .cacheDelEv, .respond]⟩

/-- The `PUT /products/<id>` handler `update_product` (source lines
110–138).  After executing the `UPDATE`, `cur.rowcount == 0` returns the
404 of line 124 before any commit or cache call; otherwise commit (line
125) then delete the cache key (line 130).  An uncommitted update is
rolled back, so the store changes only once the commit succeeds. -/
def update_product (f : Faults) (cfg : Config) (st : Store) (c : Cache)
    (product_id : Int) (name : String) (price : Rat) : Out MutResp :=
  if f.connFail then ⟨.err, st, c, [.fail]⟩
  else if f.execFail then ⟨.err, st, c, [.dbConnect, .fail]⟩
  else if (updateProductById st product_id name price).1 = 0 then
    ⟨.notFound, st, c, [.dbConnect, .dbExec, .respond]⟩
  else if f.commitFail then ⟨.err, st, c, [.dbConnect, .dbExec, .fail]⟩
  else if f.dFail then
    ⟨.err, (updateProductById st product_id name price).2, c,
     [.dbConnect, .dbExec, .dbCommit, .fail]⟩
  else
    ⟨.ok product_id, (updateProductById st product_id name price).2,
     redisDelete c "products", [.dbConnect, .dbExec, .dbCommit, .cacheDelEv, .respond]⟩

/-- The `DELETE /products/<id>` handler `delete_product` (source lines
140–161), with the same shape as `update_product`: rowcount 0 → 404
before commit and before any cache call; otherwise commit (line 148)
then delete the cache key (line 153). -/
def delete_product (f : Faults) (cfg : Config) (st : Store) (c : Cache)
    (product_id : Int) : Out MutResp :=
  if f.connFail then ⟨.err, st, c, [.fail]⟩
  else if f.execFail then ⟨.err, st, c, [.dbConnect, .fail]⟩
  else if (deleteProductById st product_id).1 = 0 then
    ⟨.notFound, st, c, [.dbConnect, .dbExec, .respond]⟩
  else if f.commitFail then ⟨.err, st, c, [.dbConnect, .dbExec, .fail]⟩
  else if f.dFail then
    ⟨.err, (deleteProductById st product_id).2, c,
     [.dbConnect, .dbExec, .dbCommit, .fail]⟩
  else
    ⟨.ok product_id, (deleteProductById st product_id).2, redisDelete c "products",
     [.dbConnect, .dbExec, .dbCommit, .cacheDelEv, .respond]⟩

/-- One logical mutation request, as dispatched to the three mutating
handlers. -/
inductive MutOp where
  | create (name : String) (price : Rat)
  | update (pid : Int) (name : String) (price : Rat)
  | delete (pid : Int)

/-- Dispatch a mutation request to its handler. -/
def runMut (op : MutOp) (f : Faults) (cfg : Config) (st : Store) (c : Cache) :
    Out MutResp :=
  match op with
  | .create n p => add_product f cfg st c n p
  | .update i n p => update_product f cfg st c i n p
  | .delete i => delete_product f cfg st c i

/-- `precedes a b tr` scans `tr` and reports whether no occurrence of `b`
appears strictly before the first occurrence of `a`.  In the traces the
handlers produce, each event occurs at most once, so `precedes a b tr`
states that any occurrence of `b` is strictly after an occurrence of
`a`, or `b` does not occur at all while no `a` is ever seen. -/
def precedes (a b : Ev) : List Ev → Bool
  | [] => true
  | e :: es => if e = b then false else if e = a then true else precedes a b es

/-- Field lookup in a JSON object (first match wins, as in a Python dict
built with distinct keys). -/
def lookupField (k : String) : List (String × Json) → Option Json
  | [] => none
  | (k', v) :: rest => if k' = k then some v else lookupField k rest

/-- The integer `"id"` field of a JSON object, when it has one. -/
def jgetId : Json → Option Int
  | .jobj fields =>
    match lookupField "id" fields with
    | some (.jint n) => some n
    | _ => none
  | _ => none

/-- The `"id"` fields of a list of JSON objects, when every element has
one. -/
def idsOfItems : List Json → Option (List Int)
  | [] => some []
  | j :: js =>
    match jgetId j, idsOfItems js with
    | some n, some ns => some (n :: ns)
    | _, _ => none

/-- The `"id"` column of a JSON array of objects, when it is one. -/
def jsonIdList : Json → Option (List Int)
  | .jarr items => idsOfItems items
  | _ => none

/-- Boolean test that an integer list is strictly increasing. -/
def strictIncr : List Int → Bool
  | [] => true
  | [_] => true
  | a :: b :: rest => decide (a < b) && strictIncr (b :: rest)

/-- Boolean test that a JSON value is an array of objects whose `"id"`
fields are strictly increasing — the shape of every payload
`listProducts` may return. -/
def jsonSortedById (j : Json) : Bool :=
  match jsonIdList j with
  | some ids => strictIncr ids
  | none => false

/-- Well-formedness of the durable store, guaranteed by the serial
primary key: every assigned `id` is below the sequence value, and ids are
pairwise distinct. -/
def WFStore (s : Store) : Prop :=
  (∀ p ∈ s.rows, p.id < s.nextId) ∧ (s.rows.map Product.id).Nodup

instance (s : Store) : Decidable (WFStore s) := by
  unfold WFStore; infer_instance

/-- Sortedness of a product list: ids strictly increasing. -/
def SortedStrict (l : List Product) : Prop :=
  (l.map Product.id).Chain' (· < ·)

/-- Invariant of the Redis state: whatever sits under the key
`"products"` is the JSON dump of a strictly `id`-sorted product list. -/
def CacheOK (c : Cache) : Prop :=
  ∀ e, c "products" = some e → ∃ l, e.value = productsToJson l ∧ SortedStrict l

/-- States of the system reachable from a well-formed store and an empty
cache through any sequence of handler executions, with arbitrary request
arguments, fault patterns and clock readings. -/
inductive Reachable : Store → Cache → Prop where
  | init (st : Store) : WFStore st → Reachable st emptyCache
  | read (f : Faults) (cfg : Config) (t : Nat) {st : Store} {c : Cache} :
      Reachable st c →
      Reachable (get_products f cfg st c t).store (get_products f cfg st c t).cache
  | mutate (op : MutOp) (f : Faults) (cfg : Config) {st : Store} {c : Cache} :
      Reachable st c →
      Reachable (runMut op f cfg st c).store (runMut op f cfg st c).cache

lemma get_products_store (f : Faults) (cfg : Config) (st : Store) (c : Cache) (t : Nat) :
    (get_products f cfg st c t).store = st := by
  unfold get_products
  repeat' split
  all_goals rfl

lemma get_products_cache_cases (f : Faults) (cfg : Config) (st : Store) (c : Cache) (t : Nat) :
    (get_products f cfg st c t).cache = c ∨
      (get_products f cfg st c t).cache =
        redisSetex c "products" snapshotTTL
          (productsToJson (selectAllProductsOrderedById st)) t := by
  unfold get_products
  repeat' split
  all_goals first | exact Or.inl rfl | exact Or.inr rfl

lemma runMut_cache_cases (op : MutOp) (f : Faults) (cfg : Config) (st : Store) (c : Cache) :
    (runMut op f cfg st c).cache = c ∨
      (runMut op f cfg st c).cache = redisDelete c "products" := by
  cases op <;> unfold runMut add_product update_product delete_product <;>
    repeat' split
  all_goals first | exact Or.inl rfl | exact Or.inr rfl

lemma wf_insertProduct {st : Store} (h : WFStore st) (name : String) (price : Rat) :
    WFStore (insertProduct st name price).2 := by
  obtain ⟨hbound, hnd⟩ := h
  constructor
  · intro p hp
    rcases List.mem_append.mp hp with hp | hp
    · exact lt_trans (hbound p hp) (lt_add_one _)
    · rcases List.mem_singleton.mp hp with rfl
      exact lt_add_one _
  · show ((st.rows ++ [(⟨st.nextId, name, price⟩ : Product)]).map Product.id).Nodup
    rw [List.map_append]
    refine List.Nodup.append hnd (List.nodup_singleton _) ?_
    intro a ha hb
    rcases List.mem_singleton.mp hb with rfl
    rcases List.mem_map.mp ha with ⟨p, hp, hpe⟩
    exact absurd hpe (ne_of_lt (hbound p hp))

lemma map_id_updateRows (rows : List Product) (pid : Int) (name : String) (price : Rat) :
    (rows.map fun p => if p.id = pid then ⟨p.id, name, price⟩ else p).map Product.id =
      rows.map Product.id := by
  induction rows with
  | nil => rfl
  | cons q qs ih =>
    simp only [List.map_cons, ih]
    congr 1
    split <;> rfl

lemma wf_updateProductById {st : Store} (h : WFStore st) (pid : Int) (name : String)
    (price : Rat) : WFStore (updateProductById st pid name price).2 := by
  obtain ⟨hbound, hnd⟩ := h
  constructor
  · intro p hp
    rcases List.mem_map.mp hp with ⟨q, hq, rfl⟩
    have : (if q.id = pid then (⟨q.id, name, price⟩ : Product) else q).id = q.id := by
      split <;> rfl
    rw [this]
    exact hbound q hq
  · show ((st.rows.map fun p => if p.id = pid then ⟨p.id, name, price⟩ else p).map
      Product.id).Nodup
    rw [map_id_updateRows]
    exact hnd

lemma wf_deleteProductById {st : Store} (h : WFStore st) (pid : Int) :
    WFStore (deleteProductById st pid).2 := by
  obtain ⟨hbound, hnd⟩ := h
  constructor
  · intro p hp
    exact hbound p (List.mem_of_mem_filter hp)
  · exact hnd.sublist ((List.filter_sublist st.rows).map Product.id)

lemma runMut_store_wf (op : MutOp) (f : Faults) (cfg : Config) {st : Store} (c : Cache)
    (h : WFStore st) : WFStore (runMut op f cfg st c).store := by
  cases op <;> unfold runMut add_product update_product delete_product <;>
    repeat' split
  all_goals
    first
    | exact h
    | exact wf_insertProduct h _ _
    | exact wf_updateProductById h _ _ _
    | exact wf_deleteProductById h _

lemma sorted_selectAll (s : Store) :
    List.Sorted prodLE (selectAllProductsOrderedById s) :=
  List.sorted_insertionSort prodLE s.rows

lemma perm_selectAll (s : Store) : (selectAllProductsOrderedById s).Perm s.rows :=
  List.perm_insertionSort prodLE s.rows

lemma sortedStrict_selectAll {s : Store} (h : WFStore s) :
    SortedStrict (selectAllProductsOrderedById s) := by
  have hnd : ((selectAllProductsOrderedById s).map Product.id).Nodup :=
    (((perm_selectAll s).map Product.id).nodup_iff).mpr h.2
  have hne : (selectAllProductsOrderedById s).Pairwise
      (fun a b : Product => a.id ≠ b.id) :=
    List.pairwise_map.mp hnd
  have hlt : (selectAllProductsOrderedById s).Pairwise
      (fun a b : Product => a.id < b.id) :=
    ((sorted_selectAll s).and hne).imp (fun hab => lt_of_le_of_ne hab.1 hab.2)
  exact (List.chain'_map Product.id).mpr hlt.chain'

lemma idsOfItems_map (l : List Product) :
    idsOfItems (l.map productToJson) = some (l.map Product.id) := by
  induction l with
  | nil => rfl
  | cons p ps ih => simp only [List.map_cons, idsOfItems, ih]; rfl

lemma strictIncr_iff : ∀ xs : List Int, strictIncr xs = true ↔ xs.Chain' (· < ·)
  | [] => by simp [strictIncr]
  | [a] => by simp [strictIncr]
  | a :: b :: rest => by
    simp only [strictIncr, Bool.and_eq_true, decide_eq_true_eq, List.chain'_cons,
      strictIncr_iff (b :: rest)]

lemma jsonIdList_products (l : List Product) :
    jsonIdList (productsToJson l) = some (l.map Product.id) := by
  simp only [productsToJson, jsonIdList, idsOfItems_map]

lemma jsonSortedById_of_sorted {l : List Product} (h : SortedStrict l) :
    jsonSortedById (productsToJson l) = true := by
  simp only [jsonSortedById, jsonIdList_products]
  exact (strictIncr_iff _).mpr h

lemma redisSetex_get_same (c : Cache) (k : String) (ttl : Nat) (v : Json) (t : Nat) :
    redisSetex c k ttl v t k = some ⟨v, t + ttl⟩ := by
  simp [redisSetex]

lemma redisDelete_get_same (c : Cache) (k : String) : redisDelete c k k = none := by
  simp [redisDelete]

lemma cacheOK_setex {c : Cache} (hc : CacheOK c) {st : Store} (hst : WFStore st) (t : Nat) :
    CacheOK (redisSetex c "products" snapshotTTL
      (productsToJson (selectAllProductsOrderedById st)) t) := by
  intro e he
  rw [redisSetex_get_same] at he
  injection he with he
  exact ⟨selectAllProductsOrderedById st, by rw [← he], sortedStrict_selectAll hst⟩

lemma cacheOK_delete (c : Cache) : CacheOK (redisDelete c "products") := by
  intro e he
  rw [redisDelete_get_same] at he
  exact Option.noConfusion he

lemma redisGet_absent {c : Cache} {k : String} (h : c k = none) (t : Nat) :
    redisGet c k t = none := by
  unfold redisGet
  rw [h]

lemma redisGet_delete (c : Cache) (k : String) (t : Nat) :
    redisGet (redisDelete c k) k t = none := by
  unfold redisGet
  rw [redisDelete_get_same]

lemma redisGet_setex_fresh (c : Cache) (k : String) (ttl : Nat) (v : Json) {t t' : Nat}
    (h : t' < t + ttl) : redisGet (redisSetex c k ttl v t) k t' = some v := by
  unfold redisGet
  rw [redisSetex_get_same]
  simp [h]

lemma redisGet_eq_some {c : Cache} {k : String} {t : Nat} {v : Json}
    (h : redisGet c k t = some v) :
    ∃ e, c k = some e ∧ t < e.expiresAt ∧ v = e.value := by
  unfold redisGet at h
  split at h
  next e heq =>
    split at h
    next hlt =>
      injection h with h
      exact ⟨e, heq, hlt, h.symm⟩
    next => exact Option.noConfusion h
  next => exact Option.noConfusion h

lemma get_products_miss (cfg : Config) (st : Store) (c : Cache) (t : Nat)
    (h : redisGet c "products" t = none) :
    get_products noFaults cfg st c t =
      ⟨.ok .database (productsToJson (selectAllProductsOrderedById st)), st,
       redisSetex c "products" snapshotTTL
         (productsToJson (selectAllProductsOrderedById st)) t,
       [.cacheGetEv, .dbConnect, .dbExec, .cacheSetEv, .respond]⟩ := by
  unfold get_products
  rw [h]
  exact rfl

lemma get_products_hit (cfg : Config) (st : Store) (c : Cache) (t : Nat) (v : Json)
    (h : redisGet c "products" t = some v) :
    get_products noFaults cfg st c t = ⟨.ok .cache v, st, c, [.cacheGetEv, .respond]⟩ := by
  unfold get_products
  rw [h]
  exact rfl

lemma add_product_ok_shape {f : Faults} {cfg : Config} {st : Store} {c : Cache}
    {n : String} {p : Rat} {pid : Int}
    (h : (add_product f cfg st c n p).resp = MutResp.ok pid) :
    add_product f cfg st c n p =
      ⟨.ok (insertProduct st n p).1, (insertProduct st n p).2, redisDelete c "products",
       [.dbConnect, .dbExec, .dbFetchId, .dbCommit, .cacheDelEv, .respond]⟩ := by
  unfold add_product at h ⊢
  split_ifs at h ⊢ <;> first | rfl | exact MutResp.noConfusion h

lemma update_product_ok_shape {f : Faults} {cfg : Config} {st : Store} {c : Cache}
    {i : Int} {n : String} {p : Rat} {pid : Int}
    (h : (update_product f cfg st c i n p).resp = MutResp.ok pid) :
    update_product f cfg st c i n p =
      ⟨.ok i, (updateProductById st i n p).2, redisDelete c "products",
       [.dbConnect, .dbExec, .dbCommit, .cacheDelEv, .respond]⟩ := by
  unfold update_product at h ⊢
  split_ifs at h ⊢ <;> first | rfl | exact MutResp.noConfusion h

lemma delete_product_ok_shape {f : Faults} {cfg : Config} {st : Store} {c : Cache}
    {i : Int} {pid : Int}
    (h : (delete_product f cfg st c i).resp = MutResp.ok pid) :
    delete_product f cfg st c i =
      ⟨.ok i, (deleteProductById st i).2, redisDelete c "products",
       [.dbConnect, .dbExec, .dbCommit, .cacheDelEv, .respond]⟩ := by
  unfold delete_product at h ⊢
  split_ifs at h ⊢ <;> first | rfl | exact MutResp.noConfusion h

lemma runMut_ok_cache (op : MutOp) (f : Faults) (cfg : Config) (st : Store) (c : Cache)
    (pid : Int) (h : (runMut op f cfg st c).resp = MutResp.ok pid) :
    (runMut op f cfg st c).cache = redisDelete c "products" := by
  cases op with
  | create n p =>
    simp only [runMut] at h ⊢
    rw [add_product_ok_shape h]
  | update i n p =>
    simp only [runMut] at h ⊢
    rw [update_product_ok_shape h]
  | delete i =>
    simp only [runMut] at h ⊢
    rw [delete_product_ok_shape h]

/-- Whether a mutation matches at least one row (for update/delete: the
`cur.rowcount == 0` test of source lines 123/146 fails), i.e. its commit
is actually reached on the fault-free path. -/
def mutationApplies (op : MutOp) (st : Store) : Prop :=
  match op with
  | .create _ _ => True
  | .update pid _ _ => st.rows.countP (fun p => p.id == pid) ≠ 0
  | .delete pid => st.rows.countP (fun p => p.id == pid) ≠ 0

instance (op : MutOp) (st : Store) : Decidable (mutationApplies op st) :=
  match op with
  | .create _ _ => isTrue trivial
  | .update pid _ _ =>
    inferInstanceAs (Decidable (st.rows.countP (fun q : Product => q.id == pid) ≠ 0))
  | .delete pid =>
    inferInstanceAs (Decidable (st.rows.countP (fun q : Product => q.id == pid) ≠ 0))

/-- The store state a mutation commits. -/
def mutatedStore (op : MutOp) (st : Store) : Store :=
  match op with
  | .create n p => (insertProduct st n p).2
  | .update pid n p => (updateProductById st pid n p).2
  | .delete pid => (deleteProductById st pid).2

/-- Truthy-file test of `get_secret` line 16: `{env_var}_FILE` is set to a
non-empty path and that path exists. -/
def fileUsable (env : Env) (fs : FS) (env_var : String) : Bool :=
  match env (env_var ++ "_FILE") with
  | some fp => !(fp == "") && (fs fp).isSome
  | none => false

/-- The environment resolved when nothing is configured. -/
def plainEnv : Env := fun _ => none

/-- An environment overriding several recognized options and a would-be
TTL knob. -/
def tunedEnv : Env := fun k =>
  if k = "DB_HOST" then some "pg.example"
  else if k = "DB_CONNECT_TIMEOUT" then some "9"
  else if k = "CACHE_TTL" then some "7"
  else none

/-- A file system with no readable paths. -/
def emptyFS : FS := fun _ => none

/-- Configuration as resolved with nothing set: all documented defaults. -/
def sampleCfg : Config := loadConfig plainEnv emptyFS

/-- A store holding one product, `{id: 1, name: "A", price: 10}`. -/
def sampleStore : Store := ⟨[⟨1, "A", 10⟩], 2⟩

/-- A cache warmed at time 0 with the snapshot of `sampleStore`. -/
def warmCache : Cache :=
  redisSetex emptyCache "products" snapshotTTL (productsToJson [⟨1, "A", 10⟩]) 0

/-- An environment pointing `DB_PASSWORD` at a secret file and setting
`DB_USER` as a plain value. -/
def secretEnv : Env := fun k =>
  if k = "DB_PASSWORD_FILE" then some "/run/secrets/dbpass"
  else if k = "DB_USER" then some "alice"
  else none

/-- The file system backing `secretEnv`: the secret file exists and holds
padded contents. -/
def secretFS : FS := fun p =>
  if p = "/run/secrets/dbpass" then some " s3cret\n" else none

lemma reachable_inv {st : Store} {c : Cache} (h : Reachable st c) :
    WFStore st ∧ CacheOK c := by
  induction h with
  | init st hwf => exact ⟨hwf, fun e he => absurd he Option.noConfusion⟩
  | read f cfg t hr ih =>
    obtain ⟨hwf, hc⟩ := ih
    refine ⟨by rw [get_products_store]; exact hwf, ?_⟩
    rcases get_products_cache_cases f cfg _ _ t with hcc | hcc
    · rw [hcc]; exact hc
    · rw [hcc]; exact cacheOK_setex hc hwf t
  | mutate op f cfg hr ih =>
    obtain ⟨hwf, hc⟩ := ih
    refine ⟨runMut_store_wf op f cfg _ hwf, ?_⟩
    rcases runMut_cache_cases op f cfg _ _ with hcc | hcc
    · rw [hcc]; exact hc
    · rw [hcc]; exact cacheOK_delete _


/-- C1: for every successful mutation (`add_product`, `update_product`,
`delete_product`), the cache snapshot key `"products"` is deleted before
the operation returns success, so the very next `listProducts` call finds
the key absent and returns `origin=store`, regardless of whether the TTL
has elapsed (the read time `t` is arbitrary). -/
theorem C1_invalidation_on_write (op : MutOp) (f : Faults) (cfg cfg' : Config)
    (st : Store) (c : Cache) (pid : Int) (t : Nat)
    (h : (runMut op f cfg st c).resp = MutResp.ok pid) :
    redisGet (runMut op f cfg st c).cache "products" t = none ∧
    (get_products noFaults cfg' (runMut op f cfg st c).store
        (runMut op f cfg st c).cache t).resp =
      ListResp.ok Origin.database
        (productsToJson (selectAllProductsOrderedById (runMut op f cfg st c).store)) := by
  constructor
  · rw [runMut_ok_cache op f cfg st c pid h]
    exact redisGet_delete c "products" t
  · rw [runMut_ok_cache op f cfg st c pid h,
      get_products_miss cfg' _ _ t (redisGet_delete c "products" t)]

/-- Witness for C1: creating `"B"` at price 20 on the sample store with a
warm cache succeeds with id 2, after which the key is gone and the next
read is served by the store. -/
theorem C1_invalidation_on_write_witness :
    (runMut (MutOp.create "B" 20) noFaults sampleCfg sampleStore warmCache).resp =
      MutResp.ok 2 ∧
    redisGet (runMut (MutOp.create "B" 20) noFaults sampleCfg sampleStore
      warmCache).cache "products" 5 = none ∧
    (get_products noFaults sampleCfg
        (runMut (MutOp.create "B" 20) noFaults sampleCfg sampleStore warmCache).store
        (runMut (MutOp.create "B" 20) noFaults sampleCfg sampleStore warmCache).cache
        5).resp =
      ListResp.ok Origin.database
        (productsToJson (selectAllProductsOrderedById
          (runMut (MutOp.create "B" 20) noFaults sampleCfg sampleStore warmCache).store)) :=
  ⟨rfl,
   (C1_invalidation_on_write (MutOp.create "B" 20) noFaults sampleCfg sampleCfg
      sampleStore warmCache 2 5 rfl).1,
   (C1_invalidation_on_write (MutOp.create "B" 20) noFaults sampleCfg sampleCfg
      sampleStore warmCache 2 5 rfl).2⟩

/-- C2: in every execution of a mutating handler, the cache invalidation
(`Ev.cacheDelEv`) never precedes the store commit: no trace shows the
delete before the first `Ev.dbCommit`, and any trace containing the
delete also contains the (successful) commit. -/
theorem C2_commit_precedes_invalidation (op : MutOp) (f : Faults) (cfg : Config)
    (st : Store) (c : Cache) :
    precedes Ev.dbCommit Ev.cacheDelEv (runMut op f cfg st c).tr = true ∧
    ((runMut op f cfg st c).tr.contains Ev.cacheDelEv = true →
      (runMut op f cfg st c).tr.contains Ev.dbCommit = true) := by
  cases op <;> simp only [runMut] <;>
    (first
      | unfold add_product
      | unfold update_product
      | unfold delete_product) <;>
    split_ifs <;> dsimp only <;> decide

/-- Witness for C2: a concrete successful delete emits the invalidation,
emits the commit, and the invalidation sits after the commit. -/
theorem C2_commit_precedes_invalidation_witness :
    (runMut (MutOp.delete 1) noFaults sampleCfg sampleStore warmCache).tr.contains
      Ev.cacheDelEv = true ∧
    precedes Ev.dbCommit Ev.cacheDelEv
      (runMut (MutOp.delete 1) noFaults sampleCfg sampleStore warmCache).tr = true ∧
    (runMut (MutOp.delete 1) noFaults sampleCfg sampleStore warmCache).tr.contains
      Ev.dbCommit = true :=
  ⟨by decide,
   (C2_commit_precedes_invalidation (MutOp.delete 1) noFaults sampleCfg sampleStore
      warmCache).1,
   (C2_commit_precedes_invalidation (MutOp.delete 1) noFaults sampleCfg sampleStore
      warmCache).2 (by decide)⟩

/-- C5: starting from a cache without the key and a fixed store, a first
`listProducts` returns `origin=store` with the store's (ordered) list and
writes the snapshot into the cache; an immediately subsequent call (any
time before the TTL runs out) returns `origin=cache` with identical
content. -/
theorem C5_populate_on_miss (cfg cfg' : Config) (st : Store) (c : Cache) (t t' : Nat)
    (hmiss : c "products" = none) (hsub : t ≤ t') (hfresh : t' < t + snapshotTTL) :
    (get_products noFaults cfg st c t).resp =
      ListResp.ok Origin.database (productsToJson (selectAllProductsOrderedById st)) ∧
    (get_products noFaults cfg st c t).cache "products" =
      some ⟨productsToJson (selectAllProductsOrderedById st), t + snapshotTTL⟩ ∧
    (get_products noFaults cfg' (get_products noFaults cfg st c t).store
        (get_products noFaults cfg st c t).cache t').resp =
      ListResp.ok Origin.cache (productsToJson (selectAllProductsOrderedById st)) := by
  have h0 := get_products_miss cfg st c t (redisGet_absent hmiss t)
  refine ⟨by rw [h0], ?_, ?_⟩
  · rw [h0]
    exact redisSetex_get_same c "products" snapshotTTL _ t
  · rw [h0]
    dsimp only
    rw [get_products_hit cfg' st _ t' _
      (redisGet_setex_fresh c "products" snapshotTTL _ hfresh)]

/-- Witness for C5 at the sample store, empty cache, times 0 and 1. -/
theorem C5_populate_on_miss_witness :
    emptyCache "products" = none ∧ 0 ≤ 1 ∧ 1 < 0 + snapshotTTL ∧
    (get_products noFaults sampleCfg sampleStore emptyCache 0).resp =
      ListResp.ok Origin.database
        (productsToJson (selectAllProductsOrderedById sampleStore)) ∧
    (get_products noFaults sampleCfg
        (get_products noFaults sampleCfg sampleStore emptyCache 0).store
        (get_products noFaults sampleCfg sampleStore emptyCache 0).cache 1).resp =
      ListResp.ok Origin.cache
        (productsToJson (selectAllProductsOrderedById sampleStore)) :=
  ⟨rfl, by decide, by decide,
   (C5_populate_on_miss sampleCfg sampleCfg sampleStore emptyCache 0 1 rfl
      (by decide) (by decide)).1,
   (C5_populate_on_miss sampleCfg sampleCfg sampleStore emptyCache 0 1 rfl
      (by decide) (by decide)).2.2⟩

lemma update_product_notFound (f : Faults) (cfg : Config) (st : Store) (c : Cache)
    (pid : Int) (n : String) (p : Rat)
    (hconn : f.connFail = false) (hexec : f.execFail = false)
    (habsent : st.rows.countP (fun q => q.id == pid) = 0) :
    update_product f cfg st c pid n p =
      ⟨.notFound, st, c, [.dbConnect, .dbExec, .respond]⟩ := by
  have h1 : (updateProductById st pid n p).1 = 0 := habsent
  unfold update_product
  rw [hconn, hexec, h1]
  exact rfl

lemma delete_product_notFound (f : Faults) (cfg : Config) (st : Store) (c : Cache)
    (pid : Int)
    (hconn : f.connFail = false) (hexec : f.execFail = false)
    (habsent : st.rows.countP (fun q => q.id == pid) = 0) :
    delete_product f cfg st c pid =
      ⟨.notFound, st, c, [.dbConnect, .dbExec, .respond]⟩ := by
  have h1 : (deleteProductById st pid).1 = 0 := habsent
  unfold delete_product
  rw [hconn, hexec, h1]
  exact rfl

/-- C4: updating or deleting an id that matches no row returns the 404
not-found response, leaves both the store and the cache untouched (no
invalidation), and a subsequent read that hits the still-warm cache keeps
returning `origin=cache` with the cached value. -/
theorem C4_notfound_no_invalidation (f : Faults) (cfg cfg' : Config) (st : Store)
    (c : Cache) (pid : Int) (n : String) (p : Rat) (t : Nat) (v : Json)
    (hconn : f.connFail = false) (hexec : f.execFail = false)
    (habsent : st.rows.countP (fun q => q.id == pid) = 0)
    (hwarm : redisGet c "products" t = some v) :
    (update_product f cfg st c pid n p).resp = MutResp.notFound ∧
    (update_product f cfg st c pid n p).store = st ∧
    (update_product f cfg st c pid n p).cache = c ∧
    (delete_product f cfg st c pid).resp = MutResp.notFound ∧
    (delete_product f cfg st c pid).store = st ∧
    (delete_product f cfg st c pid).cache = c ∧
    (get_products noFaults cfg' (update_product f cfg st c pid n p).store
        (update_product f cfg st c pid n p).cache t).resp =
      ListResp.ok Origin.cache v := by
  rw [update_product_notFound f cfg st c pid n p hconn hexec habsent,
      delete_product_notFound f cfg st c pid hconn hexec habsent]
  refine ⟨rfl, rfl, rfl, rfl, rfl, rfl, ?_⟩
  dsimp only
  rw [get_products_hit cfg' st c t v hwarm]

/-- Witness for C4: id 99 is absent from the sample store; update and
delete answer 404 and the warm cache still serves the old snapshot. -/
theorem C4_notfound_no_invalidation_witness :
    sampleStore.rows.countP (fun q => q.id == 99) = 0 ∧
    redisGet warmCache "products" 5 = some (productsToJson [⟨1, "A", 10⟩]) ∧
    (update_product noFaults sampleCfg sampleStore warmCache 99 "Z" 1).resp =
      MutResp.notFound ∧
    (delete_product noFaults sampleCfg sampleStore warmCache 99).resp =
      MutResp.notFound ∧
    (get_products noFaults sampleCfg
        (update_product noFaults sampleCfg sampleStore warmCache 99 "Z" 1).store
        (update_product noFaults sampleCfg sampleStore warmCache 99 "Z" 1).cache
        5).resp =
      ListResp.ok Origin.cache (productsToJson [⟨1, "A", 10⟩]) :=
  ⟨by decide, rfl,
   (C4_notfound_no_invalidation noFaults sampleCfg sampleCfg sampleStore warmCache
      99 "Z" 1 5 (productsToJson [⟨1, "A", 10⟩]) rfl rfl (by decide) rfl).1,
   (C4_notfound_no_invalidation noFaults sampleCfg sampleCfg sampleStore warmCache
      99 "Z" 1 5 (productsToJson [⟨1, "A", 10⟩]) rfl rfl (by decide) rfl).2.2.2.1,
   (C4_notfound_no_invalidation noFaults sampleCfg sampleCfg sampleStore warmCache
      99 "Z" 1 5 (productsToJson [⟨1, "A", 10⟩]) rfl rfl (by decide) rfl).2.2.2.2.2.2⟩

/-- C6: for every reachable system state, every successful `listProducts`
response — whether served from the cache or from the store — carries a
JSON array whose `"id"` fields are strictly ascending. -/
theorem C6_listing_sorted_by_id {st : Store} {c : Cache} (hr : Reachable st c)
    (f : Faults) (cfg : Config) (t : Nat) (o : Origin) (d : Json)
    (h : (get_products f cfg st c t).resp = ListResp.ok o d) :
    jsonSortedById d = true := by
  obtain ⟨hwf, hc⟩ := reachable_inv hr
  unfold get_products at h
  split at h
  · exact ListResp.noConfusion h
  · split at h
    next v heq =>
      replace h : ListResp.ok Origin.cache v = ListResp.ok o d := h
      injection h with h1 h2
      obtain ⟨e, hce, hlt, hv⟩ := redisGet_eq_some heq
      obtain ⟨l, hval, hsort⟩ := hc e hce
      rw [← h2, hv, hval]
      exact jsonSortedById_of_sorted hsort
    next heq =>
      split at h
      · exact ListResp.noConfusion h
      · split at h
        · exact ListResp.noConfusion h
        · split at h
          · exact ListResp.noConfusion h
          · replace h :
              ListResp.ok Origin.database
                (productsToJson (selectAllProductsOrderedById st)) =
                ListResp.ok o d := h
            injection h with h1 h2
            rw [← h2]
            exact jsonSortedById_of_sorted (sortedStrict_selectAll hwf)

/-- Witness for C6: the initial sample state is reachable and its listing
is sorted. -/
theorem C6_listing_sorted_by_id_witness :
    (get_products noFaults sampleCfg sampleStore emptyCache 0).resp =
      ListResp.ok Origin.database (productsToJson [⟨1, "A", 10⟩]) ∧
    jsonSortedById (productsToJson [⟨1, "A", 10⟩]) = true :=
  ⟨rfl,
   C6_listing_sorted_by_id (Reachable.init sampleStore (by decide)) noFaults
     sampleCfg 0 Origin.database (productsToJson [⟨1, "A", 10⟩]) rfl⟩

lemma bool_not_true {b : Bool} (h : ¬ b = true) : b = false := by
  cases b
  · rfl
  · exact absurd rfl h

lemma runMut_shape_conn (op : MutOp) (f : Faults) (cfg : Config) (st : Store)
    (c : Cache) (h : f.connFail = true) :
    runMut op f cfg st c = ⟨.err, st, c, [.fail]⟩ := by
  cases op <;> simp only [runMut] <;>
    (first
      | unfold add_product
      | unfold update_product
      | unfold delete_product) <;>
    rw [h] <;> exact rfl

lemma runMut_shape_exec (op : MutOp) (f : Faults) (cfg : Config) (st : Store)
    (c : Cache) (h1 : f.connFail = false) (h2 : f.execFail = true) :
    runMut op f cfg st c = ⟨.err, st, c, [.dbConnect, .fail]⟩ := by
  cases op <;> simp only [runMut] <;>
    (first
      | unfold add_product
      | unfold update_product
      | unfold delete_product) <;>
    rw [h1, h2] <;> exact rfl

lemma runMut_commitFail (op : MutOp) (f : Faults) (cfg : Config) (st : Store)
    (c : Cache) (h1 : f.connFail = false) (h2 : f.execFail = false)
    (h3 : f.commitFail = true) (ha : mutationApplies op st) :
    (runMut op f cfg st c).resp = MutResp.err ∧
    (runMut op f cfg st c).store = st ∧
    (runMut op f cfg st c).cache = c ∧
    (runMut op f cfg st c).tr.contains Ev.cacheDelEv = false := by
  cases op with
  | create n p =>
    simp only [runMut]
    unfold add_product
    rw [h1, h2, h3]
    exact ⟨rfl, rfl, rfl, rfl⟩
  | update i n p =>
    have hz : ¬((updateProductById st i n p).1 = 0) := ha
    simp only [runMut]
    unfold update_product
    rw [h1, h2, if_neg hz, h3]
    exact ⟨rfl, rfl, rfl, rfl⟩
  | delete i =>
    have hz : ¬((deleteProductById st i).1 = 0) := ha
    simp only [runMut]
    unfold delete_product
    rw [h1, h2, if_neg hz, h3]
    exact ⟨rfl, rfl, rfl, rfl⟩

lemma runMut_commitFail_noDel (op : MutOp) (f : Faults) (cfg : Config) (st : Store)
    (c : Cache) (h1 : f.connFail = false) (h2 : f.execFail = false)
    (h3 : f.commitFail = true) :
    (runMut op f cfg st c).tr.contains Ev.cacheDelEv = false := by
  cases op with
  | create n p =>
    simp only [runMut]
    unfold add_product
    rw [h1, h2, h3]
    exact rfl
  | update i n p =>
    by_cases hz : (updateProductById st i n p).1 = 0
    · simp only [runMut]
      unfold update_product
      rw [h1, h2, if_pos hz]
      exact rfl
    · simp only [runMut]
      unfold update_product
      rw [h1, h2, if_neg hz, h3]
      exact rfl
  | delete i =>
    by_cases hz : (deleteProductById st i).1 = 0
    · simp only [runMut]
      unfold delete_product
      rw [h1, h2, if_pos hz]
      exact rfl
    · simp only [runMut]
      unfold delete_product
      rw [h1, h2, if_neg hz, h3]
      exact rfl

/-- C10 (implicit): if the durable-store step of a mutation fails —
connection, statement execution, or (when the statement matched a row)
the commit — the handler returns the 500 error, the store is left
unchanged (the uncommitted transaction rolls back), and no cache
invalidation is issued, so the cached snapshot is exactly as before;
conversely, the cache delete is only ever reached when connection,
execution and commit all succeeded. -/
theorem C10_store_failure_no_invalidation (op : MutOp) (f : Faults) (cfg : Config)
    (st : Store) (c : Cache) :
    ((f.connFail = true ∨ f.execFail = true) →
      (runMut op f cfg st c).resp = MutResp.err ∧
      (runMut op f cfg st c).store = st ∧
      (runMut op f cfg st c).cache = c ∧
      (runMut op f cfg st c).tr.contains Ev.cacheDelEv = false) ∧
    (f.connFail = false → f.execFail = false → f.commitFail = true →
      mutationApplies op st →
      (runMut op f cfg st c).resp = MutResp.err ∧
      (runMut op f cfg st c).store = st ∧
      (runMut op f cfg st c).cache = c ∧
      (runMut op f cfg st c).tr.contains Ev.cacheDelEv = false) ∧
    ((runMut op f cfg st c).tr.contains Ev.cacheDelEv = true →
      f.connFail = false ∧ f.execFail = false ∧ f.commitFail = false) := by
  refine ⟨?_, ?_, ?_⟩
  · intro hfail
    by_cases hcn : f.connFail = true
    · rw [runMut_shape_conn op f cfg st c hcn]
      exact ⟨rfl, rfl, rfl, rfl⟩
    · have hex : f.execFail = true := hfail.resolve_left hcn
      rw [runMut_shape_exec op f cfg st c (bool_not_true hcn) hex]
      exact ⟨rfl, rfl, rfl, rfl⟩
  · intro h1 h2 h3 ha
    exact runMut_commitFail op f cfg st c h1 h2 h3 ha
  · intro hdel
    by_cases hcn : f.connFail = true
    · rw [runMut_shape_conn op f cfg st c hcn] at hdel
      exact absurd hdel (by exact fun hh => Bool.noConfusion hh)
    · have hcn' := bool_not_true hcn
      by_cases hex : f.execFail = true
      · rw [runMut_shape_exec op f cfg st c hcn' hex] at hdel
        exact absurd hdel (by exact fun hh => Bool.noConfusion hh)
      · have hex' := bool_not_true hex
        by_cases hcm : f.commitFail = true
        · rw [runMut_commitFail_noDel op f cfg st c hcn' hex' hcm] at hdel
          exact Bool.noConfusion hdel
        · exact ⟨hcn', hex', bool_not_true hcm⟩

/-- Witness for C10: a failing connection, and a failing commit on a
matching delete, each yield a 500 with the warm cache intact; a fault-free
create does reach the cache delete. -/
theorem C10_store_failure_no_invalidation_witness :
    (runMut (MutOp.delete 1) ⟨false, false, false, true, false, false⟩ sampleCfg
      sampleStore warmCache).resp = MutResp.err ∧
    (runMut (MutOp.delete 1) ⟨false, false, false, false, false, true⟩ sampleCfg
      sampleStore warmCache).resp = MutResp.err ∧
    (runMut (MutOp.delete 1) ⟨false, false, false, false, false, true⟩ sampleCfg
      sampleStore warmCache).cache = warmCache ∧
    (runMut (MutOp.create "B" 20) noFaults sampleCfg sampleStore warmCache).tr.contains
      Ev.cacheDelEv = true ∧
    noFaults.connFail = false ∧ noFaults.execFail = false ∧
    noFaults.commitFail = false :=
  ⟨((C10_store_failure_no_invalidation (MutOp.delete 1)
      ⟨false, false, false, true, false, false⟩ sampleCfg sampleStore warmCache).1
      (Or.inl rfl)).1,
   ((C10_store_failure_no_invalidation (MutOp.delete 1)
      ⟨false, false, false, false, false, true⟩ sampleCfg sampleStore warmCache).2.1
      rfl rfl rfl (by decide)).1,
   ((C10_store_failure_no_invalidation (MutOp.delete 1)
      ⟨false, false, false, false, false, true⟩ sampleCfg sampleStore warmCache).2.1
      rfl rfl rfl (by decide)).2.2.1,
   rfl,
   ((C10_store_failure_no_invalidation (MutOp.create "B" 20) noFaults sampleCfg
      sampleStore warmCache).2.2 rfl).1,
   ((C10_store_failure_no_invalidation (MutOp.create "B" 20) noFaults sampleCfg
      sampleStore warmCache).2.2 rfl).2.1,
   ((C10_store_failure_no_invalidation (MutOp.create "B" 20) noFaults sampleCfg
      sampleStore warmCache).2.2 rfl).2.2⟩

/-- Counterexample to C3: cache-call failures DO change the outcome of
the enclosing operation.  With the store and request identical, a raising
`redis get` turns the list read from a 200 `origin=store` response into a
500 (the call sits outside the `try` block, so it is not treated as a
miss); a raising `setex` on the miss path turns the read into a 500; and
a raising cache `delete` turns a create that the store fully committed
into a 500 instead of returning the new id. -/
theorem C3_cache_failure_counterexample :
    (get_products ⟨true, false, false, false, false, false⟩ sampleCfg sampleStore
      emptyCache 0).resp = ListResp.err ∧
    (get_products ⟨false, true, false, false, false, false⟩ sampleCfg sampleStore
      emptyCache 0).resp = ListResp.err ∧
    (get_products noFaults sampleCfg sampleStore emptyCache 0).resp =
      ListResp.ok Origin.database (productsToJson [⟨1, "A", 10⟩]) ∧
    (add_product ⟨false, false, true, false, false, false⟩ sampleCfg sampleStore
      emptyCache "B" 20).resp = MutResp.err ∧
    (add_product noFaults sampleCfg sampleStore emptyCache "B" 20).resp =
      MutResp.ok 2 :=
  ⟨rfl, rfl, rfl, rfl, rfl⟩

/-- C3 as amended: a raising cache get makes `get_products` fail with a
500 (it is not recovered as a miss); a raising `setex` on the miss path
makes the read fail with a 500 even though the store answered; a raising
cache delete makes a mutation whose commit already succeeded fail with a
500, leaving the store mutated and the cache untouched.  Cache failures
are surfaced to the user as errors, not swallowed. -/
theorem C3_cache_failure_amended (f : Faults) (cfg : Config) (st : Store) (c : Cache)
    (t : Nat) (op : MutOp) :
    (f.gFail = true →
      (get_products f cfg st c t).resp = ListResp.err ∧
      (get_products f cfg st c t).cache = c) ∧
    (f.gFail = false → f.connFail = false → f.execFail = false → f.sFail = true →
      redisGet c "products" t = none →
      (get_products f cfg st c t).resp = ListResp.err ∧
      (get_products f cfg st c t).cache = c) ∧
    (f.connFail = false → f.execFail = false → f.commitFail = false → f.dFail = true →
      mutationApplies op st →
      (runMut op f cfg st c).resp = MutResp.err ∧
      (runMut op f cfg st c).store = mutatedStore op st ∧
      (runMut op f cfg st c).cache = c) := by
  refine ⟨?_, ?_, ?_⟩
  · intro hg
    unfold get_products
    rw [hg]
    exact ⟨rfl, rfl⟩
  · intro hg h1 h2 hs hmiss
    unfold get_products
    rw [hg, hmiss, h1, h2, hs]
    exact ⟨rfl, rfl⟩
  · intro h1 h2 h3 hd ha
    cases op with
    | create n p =>
      simp only [runMut]
      unfold add_product
      rw [h1, h2, h3, hd]
      exact ⟨rfl, rfl, rfl⟩
    | update i n p =>
      have hz : ¬((updateProductById st i n p).1 = 0) := ha
      simp only [runMut]
      unfold update_product
      rw [h1, h2, if_neg hz, h3, hd]
      exact ⟨rfl, rfl, rfl⟩
    | delete i =>
      have hz : ¬((deleteProductById st i).1 = 0) := ha
      simp only [runMut]
      unfold delete_product
      rw [h1, h2, if_neg hz, h3, hd]
      exact ⟨rfl, rfl, rfl⟩

/-- Witness for the amended C3 at concrete states. -/
theorem C3_cache_failure_amended_witness :
    (get_products ⟨true, false, false, false, false, false⟩ sampleCfg sampleStore
      warmCache 0).resp = ListResp.err ∧
    (get_products ⟨false, true, false, false, false, false⟩ sampleCfg sampleStore
      emptyCache 0).resp = ListResp.err ∧
    (runMut (MutOp.create "B" 20) ⟨false, false, true, false, false, false⟩ sampleCfg
      sampleStore warmCache).resp = MutResp.err :=
  ⟨((C3_cache_failure_amended ⟨true, false, false, false, false, false⟩ sampleCfg
      sampleStore warmCache 0 (MutOp.create "B" 20)).1 rfl).1,
   ((C3_cache_failure_amended ⟨false, true, false, false, false, false⟩ sampleCfg
      sampleStore emptyCache 0 (MutOp.create "B" 20)).2.1 rfl rfl rfl rfl rfl).1,
   ((C3_cache_failure_amended ⟨false, false, true, false, false, false⟩ sampleCfg
      sampleStore warmCache 0 (MutOp.create "B" 20)).2.2 rfl rfl rfl rfl trivial).1⟩

/-- Counterexample to C7: two environments that resolve to different
configurations (one even sets a would-be `CACHE_TTL` knob to 7) produce
cache entries with the same expiry `0 + 120`: the TTL written by
`get_products` is the hard-coded literal 120 of source line 71, not a
configuration option. -/
theorem C7_ttl_not_configurable_counterexample :
    loadConfig plainEnv emptyFS ≠ loadConfig tunedEnv emptyFS ∧
    tunedEnv "CACHE_TTL" = some "7" ∧
    (get_products noFaults (loadConfig plainEnv emptyFS) sampleStore emptyCache
      0).cache "products" = some ⟨productsToJson [⟨1, "A", 10⟩], 120⟩ ∧
    (get_products noFaults (loadConfig tunedEnv emptyFS) sampleStore emptyCache
      0).cache "products" = some ⟨productsToJson [⟨1, "A", 10⟩], 120⟩ :=
  ⟨by decide, rfl, rfl, rfl⟩

/-- C7 as amended: on a miss, `listProducts` writes the snapshot with a
TTL of exactly 120 time-units; this value is the hard constant 120 and is
independent of the environment-resolved configuration. -/
theorem C7_ttl_amended (env : Env) (fs : FS) (st : Store) (c : Cache) (t : Nat)
    (hmiss : c "products" = none) :
    snapshotTTL = 120 ∧
    (get_products noFaults (loadConfig env fs) st c t).cache "products" =
      some ⟨productsToJson (selectAllProductsOrderedById st), t + 120⟩ := by
  refine ⟨rfl, ?_⟩
  rw [get_products_miss (loadConfig env fs) st c t (redisGet_absent hmiss t)]
  exact redisSetex_get_same c "products" snapshotTTL _ t

/-- Witness for the amended C7. -/
theorem C7_ttl_amended_witness :
    emptyCache "products" = none ∧
    (get_products noFaults (loadConfig tunedEnv emptyFS) sampleStore emptyCache
      3).cache "products" =
      some ⟨productsToJson (selectAllProductsOrderedById sampleStore), 3 + 120⟩ :=
  ⟨rfl, (C7_ttl_amended tunedEnv emptyFS sampleStore emptyCache 3 rfl).2⟩

/-- Counterexample to C8: on a fully successful create, the id fetch
event `Ev.dbFetchId` occurs strictly before the commit event
`Ev.dbCommit` in the handler's trace — the id is read from the
`RETURNING` clause before the write is confirmed durable, contradicting
the claim that the id is obtained only after commit. -/
theorem C8_id_before_commit_counterexample :
    (add_product noFaults sampleCfg sampleStore emptyCache "B" 20).resp =
      MutResp.ok 2 ∧
    precedes Ev.dbCommit Ev.dbFetchId
      (add_product noFaults sampleCfg sampleStore emptyCache "B" 20).tr = false :=
  ⟨rfl, rfl⟩

/-- C8 as amended: the new id is fetched from the `INSERT ... RETURNING`
statement after the statement executes but before the commit; the
handler returns success carrying that id only after the commit succeeds
(every trace has the fetch after the execute and before any commit, and a
success response implies the commit happened). -/
theorem C8_id_after_insert_amended (f : Faults) (cfg : Config) (st : Store)
    (c : Cache) (n : String) (p : Rat) (pid : Int) :
    precedes Ev.dbExec Ev.dbFetchId (add_product f cfg st c n p).tr = true ∧
    precedes Ev.dbFetchId Ev.dbCommit (add_product f cfg st c n p).tr = true ∧
    ((add_product f cfg st c n p).resp = MutResp.ok pid →
      pid = (insertProduct st n p).1 ∧
      (add_product f cfg st c n p).tr.contains Ev.dbCommit = true) := by
  refine ⟨?_, ?_, ?_⟩
  · unfold add_product
    split_ifs <;> rfl
  · unfold add_product
    split_ifs <;> rfl
  · intro h
    have hsh := add_product_ok_shape h
    rw [hsh] at h
    replace h : MutResp.ok (insertProduct st n p).1 = MutResp.ok pid := h
    injection h with h
    refine ⟨h.symm, ?_⟩
    rw [hsh]
    rfl

/-- Witness for the amended C8. -/
theorem C8_id_after_insert_amended_witness :
    (add_product noFaults sampleCfg sampleStore emptyCache "B" 20).resp =
      MutResp.ok 2 ∧
    precedes Ev.dbExec Ev.dbFetchId
      (add_product noFaults sampleCfg sampleStore emptyCache "B" 20).tr = true ∧
    precedes Ev.dbFetchId Ev.dbCommit
      (add_product noFaults sampleCfg sampleStore emptyCache "B" 20).tr = true ∧
    (2 : Int) = (insertProduct sampleStore "B" 20).1 ∧
    (add_product noFaults sampleCfg sampleStore emptyCache "B" 20).tr.contains
      Ev.dbCommit = true :=
  ⟨rfl,
   (C8_id_after_insert_amended noFaults sampleCfg sampleStore emptyCache "B" 20 2).1,
   (C8_id_after_insert_amended noFaults sampleCfg sampleStore emptyCache "B" 20 2).2.1,
   ((C8_id_after_insert_amended noFaults sampleCfg sampleStore emptyCache "B" 20
      2).2.2 rfl).1,
   ((C8_id_after_insert_amended noFaults sampleCfg sampleStore emptyCache "B" 20
      2).2.2 rfl).2⟩

/-- C9: `get_secret` resolves in this order: if `{env_var}_FILE` is set
to a truthy path and that path exists, the value is the stripped file
contents; otherwise the plain environment value if set; otherwise the
supplied default. -/
theorem C9_secret_resolution (env : Env) (fs : FS) (env_var : String)
    (dflt : Option String) :
    (fileUsable env fs env_var = true →
      ∃ fp content, env (env_var ++ "_FILE") = some fp ∧ fs fp = some content ∧
        get_secret env fs env_var dflt = some (pyStrip content)) ∧
    (fileUsable env fs env_var = false →
      (∀ v, env env_var = some v → get_secret env fs env_var dflt = some v) ∧
      (env env_var = none → get_secret env fs env_var dflt = dflt)) := by
  constructor
  · intro hfile
    unfold fileUsable at hfile
    cases henv : env (env_var ++ "_FILE") with
    | none =>
      simp only [henv] at hfile
      exact Bool.noConfusion hfile
    | some fp =>
      cases hfs : fs fp with
      | none =>
        simp only [henv, hfs] at hfile
        simp at hfile
      | some content =>
        simp only [henv, hfs] at hfile
        have hne : ¬(fp = "") := by
          intro he
          subst he
          simp at hfile
        refine ⟨fp, content, rfl, hfs, ?_⟩
        unfold get_secret
        simp only [henv, hfs, if_neg hne]
  · intro hfile
    unfold fileUsable at hfile
    constructor
    · intro v hv
      unfold get_secret
      cases henv : env (env_var ++ "_FILE") with
      | none =>
        simp only [henv, hv]
        rfl
      | some fp =>
        cases hfs : fs fp with
        | none =>
          simp only [henv, hfs, hv]
          rfl
        | some content =>
          simp only [henv, hfs] at hfile
          have he : fp = "" := by
            simpa using hfile
          simp only [henv, hfs, if_pos he, hv]
          rfl
    · intro hnone
      unfold get_secret
      cases henv : env (env_var ++ "_FILE") with
      | none =>
        simp only [henv, hnone]
        rfl
      | some fp =>
        cases hfs : fs fp with
        | none =>
          simp only [henv, hfs, hnone]
          rfl
        | some content =>
          simp only [henv, hfs] at hfile
          have he : fp = "" := by
            simpa using hfile
          simp only [henv, hfs, if_pos he, hnone]
          rfl

/-- Witness for C9: `DB_PASSWORD` comes stripped from the secret file,
`DB_USER` from the plain environment value, `DB_NAME` from the default. -/
theorem C9_secret_resolution_witness :
    (fileUsable secretEnv secretFS "DB_PASSWORD" = true ∧
      ∃ fp content, secretEnv ("DB_PASSWORD" ++ "_FILE") = some fp ∧
        secretFS fp = some content ∧
        get_secret secretEnv secretFS "DB_PASSWORD" (some "securepassword123") =
          some (pyStrip content)) ∧
    (fileUsable secretEnv secretFS "DB_USER" = false ∧
      get_secret secretEnv secretFS "DB_USER" (some "ecomuser") = some "alice") ∧
    (fileUsable secretEnv secretFS "DB_NAME" = false ∧
      get_secret secretEnv secretFS "DB_NAME" (some "ecommerce") = some "ecommerce") :=
  ⟨⟨rfl, (C9_secret_resolution secretEnv secretFS "DB_PASSWORD"
      (some "securepassword123")).1 rfl⟩,
   ⟨rfl, ((C9_secret_resolution secretEnv secretFS "DB_USER" (some "ecomuser")).2
      rfl).1 "alice" rfl⟩,
   ⟨rfl, ((C9_secret_resolution secretEnv secretFS "DB_NAME" (some "ecommerce")).2
      rfl).2 rfl⟩⟩
